import Mathlib

/-!
Shallow embedding of the build script (src/build.rs) of the assimp-sys
crate, together with theorems checking its natural-language specification.

The build script is a straight-line procedure with one fallback branch:
probe pkg-config for assimp at exactly version 5.0; on failure compile the
bundled sources with cmake.  Afterwards it best-effort probes minizip,
emits a C++ standard library link directive keyed on the target triple,
and runs bindgen over the umbrella header wrapper.h.

Modelling conventions:
- Environment variables, pkg-config probe outcomes, the cmake output
  directory, the walkdir file listing, and the bindgen/write outcomes are
  packaged in a `BuildEnv` record: the build script is then a pure
  function of that record.
- Every observable side effect (a `cargo:` line printed to stdout, a
  pkg-config probe, a cmake invocation, a bindgen run, a file write) is
  recorded in order in a trace of `Effect` values.
- A Rust panic (`unwrap` on a missing variable, `expect` on bindgen
  failure) is modelled as `Except.error` carrying a `BuildError`; the
  trace accumulated up to the panic point is still reported, so that
  claims about partial output before an abort can be stated.
-/

namespace AssimpSys

/-- Substring test on character lists: true when `pat` occurs contiguously
in the first list.  This models the Rust `str::contains` used on the
target triple. -/
def chars_contain : List Char → List Char → Bool
  | [], pat => pat.isEmpty
  | c :: t, pat => pat.isPrefixOf (c :: t) || chars_contain t pat

/-- Model of Rust `str::contains` for strings. -/
def str_contains (s pat : String) : Bool :=
  chars_contain s.data pat.data

/-- Model of Rust `str::ends_with`, used by the rebuild-trigger filter. -/
def str_ends_with (s suf : String) : Bool :=
  suf.data.isSuffixOf s.data

/-- Model of `PathBuf::join` followed by conversion back to a string. -/
def path_join (a b : String) : String :=
  a ++ "/" ++ b

/-- Result of a successful pkg-config probe (`pkg_config::Library`): the
fields of that struct that build.rs reads. -/
structure PkgLibrary where
  link_paths : List String
  libs : List String
  include_paths : List String
deriving DecidableEq

/-- One entry produced by the walkdir traversal of the bundled `assimp`
tree (`min_depth(1)`, so the root itself is not listed): the path that is
printed and the file name that is tested against the extensions. -/
structure DirEntry where
  path : String
  file_name : String
deriving DecidableEq

/-- State of the bindgen builder (`bindgen::Builder`): the fields build.rs
sets through its chained calls. -/
structure Builder where
  header_file : String
  blacklisted_items : List String
  clang_arg_list : List String
  parse_cargo_callbacks : Bool
  derive_partialeq_flag : Bool
  derive_eq_flag : Bool
  derive_hash_flag : Bool
  derive_debug_flag : Bool
deriving DecidableEq

/-- Model of `bindgen::Builder::default()`. -/
def Builder.start : Builder :=
  ⟨"", [], [], false, false, false, false, false⟩

/-- Model of `Builder::header`. -/
def Builder.header (b : Builder) (h : String) : Builder :=
  { b with header_file := h }

/-- Model of `Builder::parse_callbacks(CargoCallbacks)`. -/
def Builder.parse_callbacks (b : Builder) : Builder :=
  { b with parse_cargo_callbacks := true }

/-- Model of `Builder::blacklist_item`: appends one symbol to the
deny-list. -/
def Builder.blacklist_item (b : Builder) (s : String) : Builder :=
  { b with blacklisted_items := b.blacklisted_items ++ [s] }

/-- Model of `Builder::clang_args`: appends the given arguments. -/
def Builder.clang_args (b : Builder) (args : List String) : Builder :=
  { b with clang_arg_list := b.clang_arg_list ++ args }

/-- Model of `Builder::derive_partialeq`. -/
def Builder.derive_partialeq (b : Builder) (v : Bool) : Builder :=
  { b with derive_partialeq_flag := v }

/-- Model of `Builder::derive_eq`. -/
def Builder.derive_eq (b : Builder) (v : Bool) : Builder :=
  { b with derive_eq_flag := v }

/-- Model of `Builder::derive_hash`. -/
def Builder.derive_hash (b : Builder) (v : Bool) : Builder :=
  { b with derive_hash_flag := v }

/-- Model of `Builder::derive_debug`. -/
def Builder.derive_debug (b : Builder) (v : Bool) : Builder :=
  { b with derive_debug_flag := v }

/-- One observable side effect of the build script, in program order. -/
inductive Effect where
  /-- A `cargo:` directive printed to stdout by `println!`. -/
  | cargo_line (line : String)
  /-- A pkg-config probe for `name`, with its exact-version constraint
  when one was set (`exactly_version`). -/
  | pkg_probe (name : String) (exact_version : Option String)
  /-- An invocation of the cmake build wrapper on the given source
  directory. -/
  | cmake_build (dir : String)
  /-- An invocation of bindgen with the given final builder state. -/
  | bindgen_run (b : Builder)
  /-- A write of the generated declarations to the given file. -/
  | file_write (path : String)
deriving DecidableEq

/-- Reasons the build script panics, aborting the build step. -/
inductive BuildError where
  /-- `unwrap` on a missing environment variable. -/
  | missing_env (name : String)
  /-- `expect("Unable to generate bindings")` on bindgen failure. -/
  | generate_failed
  /-- `expect("Couldn't write bindings")` on a failed file write. -/
  | write_failed
deriving DecidableEq

/-- Panic message attached to each abort, as written in build.rs. -/
def BuildError.message : BuildError → String
  | .missing_env n => "environment variable " ++ n ++ " is not set"
  | .generate_failed => "Unable to generate bindings"
  | .write_failed => "Couldn't write bindings"

/-- Ambient build environment: every external input build.rs reads.
Environment variables are `none` when unset; probe fields are `none` when
the corresponding pkg-config probe fails; `bindgen_ok` and `write_ok`
model success of header parsing and of writing the output file. -/
structure BuildEnv where
  opt_level : Option String
  profile : Option String
  target : Option String
  out_dir : Option String
  manifest_dir : Option String
  assimp_probe : Option PkgLibrary
  minizip_probe : Option PkgLibrary
  cmake_out : String
  assimp_tree : List DirEntry
  bindgen_ok : Bool
  write_ok : Bool
deriving DecidableEq

/-- Debug suffix computation of compile_bundled (build.rs lines 40 to 48):
a Rust `match` on the pair of `OPT_LEVEL` and `PROFILE`, read with
`unwrap_or_default`. -/
def debug_suffix (opt_level profile : String) : String :=
  match opt_level, profile with
  | "1", _ | "2", _ | "3", _ | "s", _ | "z", _ => ""
  | "0", _ => "d"
  | _, "debug" => "d"
  | _, _ => ""

/-- Rebuild-trigger loop of compile_bundled (build.rs lines 53 to 60): for
each walkdir entry, if the file name ends in `.h`, `.cpp` or `.inl`, print
a `cargo:rerun-if-changed` line for its path. -/
def rerun_loop : List DirEntry → List Effect
  | [] => []
  | d :: rest =>
      (if (str_ends_with d.file_name ".h" || str_ends_with d.file_name ".cpp" ||
            str_ends_with d.file_name ".inl") = true
        then [Effect.cargo_line ("cargo:rerun-if-changed=" ++ d.path)]
        else []) ++ rerun_loop rest

/-- Embedding of `compile_bundled` (build.rs lines 11 to 67): run cmake on
the bundled `assimp` tree, emit the link-search line for its `lib`
subdirectory, emit the static link line with the computed debug suffix,
emit the rebuild triggers, then unwrap `CARGO_MANIFEST_DIR` and return the
two include paths.  The unwrap panics when the variable is unset, after
the directives above have already been printed. -/
def compile_bundled (env : BuildEnv) (out_path : String) :
    List Effect × Except BuildError (List String) :=
  let dst := path_join env.cmake_out "lib"
  let eff : List Effect :=
    [Effect.cmake_build "assimp",
     Effect.cargo_line ("cargo:rustc-link-search=native=" ++ dst),
     Effect.cargo_line ("cargo:rustc-link-lib=static=assimp" ++
       debug_suffix (env.opt_level.getD "") (env.profile.getD ""))] ++
    rerun_loop env.assimp_tree
  match env.manifest_dir with
  | none => (eff, .error (.missing_env "CARGO_MANIFEST_DIR"))
  | some manifest_dir =>
      (eff, .ok [path_join (path_join manifest_dir "assimp") "include",
                 path_join out_path "include"])

/-- Directive block printed for a successfully probed pkg-config library
(build.rs lines 73 to 78 for assimp and 90 to 95 for minizip): one
`rustc-link-path` line per link path, then one `rustc-link-lib` line per
library name. -/
def pkg_lib_effects (lib : PkgLibrary) : List Effect :=
  lib.link_paths.map (fun p => Effect.cargo_line ("cargo:rustc-link-path=" ++ p)) ++
  lib.libs.map (fun l => Effect.cargo_line ("cargo:rustc-link-lib=" ++ l))

/-- Standard library directive block of discover_library (build.rs lines
100 to 104): link `stdc++` when the target triple contains `gnu`,
otherwise link `c++` when it contains `apple`, otherwise nothing. -/
def std_lib_effects (target : String) : List Effect :=
  if str_contains target "gnu" then
    [Effect.cargo_line "cargo:rustc-link-lib=stdc++"]
  else if str_contains target "apple" then
    [Effect.cargo_line "cargo:rustc-link-lib=c++"]
  else []

/-- Embedding of `discover_library` (build.rs lines 70 to 106): probe
pkg-config for assimp at exactly version 5.0; on success emit its link
directives and keep its include paths, on failure fall back to
compile_bundled.  Then best-effort probe minizip and emit its directives
when found, unwrap `TARGET` and emit the standard library directive block,
and return the include paths. -/
def discover_library (env : BuildEnv) (out_path : String) :
    List Effect × Except BuildError (List String) :=
  let probe : List Effect := [Effect.pkg_probe "assimp" (some "5.0")]
  let step1 : List Effect × Except BuildError (List String) :=
    match env.assimp_probe with
    | some assimp => (probe ++ pkg_lib_effects assimp, .ok assimp.include_paths)
    | none =>
        let r := compile_bundled env out_path
        (probe ++ r.1, r.2)
  match step1.2 with
  | .error e => (step1.1, .error e)
  | .ok include_paths =>
      let eff2 := step1.1 ++ [Effect.pkg_probe "minizip" none] ++
        (match env.minizip_probe with
         | some minizip => pkg_lib_effects minizip
         | none => [])
      match env.target with
      | none => (eff2, .error (.missing_env "TARGET"))
      | some target => (eff2 ++ std_lib_effects target, .ok include_paths)

/-- Final bindgen builder state constructed by `generate_bindings`
(build.rs lines 110 to 125): the chained calls followed by the loop adding
`-I path` for every include path. -/
def bindgen_builder (include_paths : List String) : Builder :=
  let b1 := (Builder.start.header "wrapper.h").parse_callbacks
  let b2 := b1.blacklist_item "FP_ZERO"
  let b3 := b2.blacklist_item "FP_SUBNORMAL"
  let b4 := b3.blacklist_item "FP_NORMAL"
  let b5 := b4.blacklist_item "FP_NAN"
  let b6 := b5.blacklist_item "FP_INFINITE"
  let b7 := (((b6.derive_partialeq true).derive_eq true).derive_hash
    true).derive_debug true
  include_paths.foldl (fun b p => b.clang_args ["-I", p]) b7

/-- Embedding of `generate_bindings` (build.rs lines 108 to 131): print
the rerun line for wrapper.h, build the bindgen builder, run bindgen
(panicking with the generate message on failure), and write the output to
`bindings.rs` under the output path (panicking with the write message on
failure). -/
def generate_bindings (env : BuildEnv) (out_path : String)
    (include_paths : List String) : List Effect × Except BuildError Unit :=
  let b := bindgen_builder include_paths
  let eff : List Effect :=
    [Effect.cargo_line "cargo:rerun-if-changed=wrapper.h", Effect.bindgen_run b]
  if env.bindgen_ok then
    if env.write_ok then
      (eff ++ [Effect.file_write (path_join out_path "bindings.rs")], .ok ())
    else (eff, .error .write_failed)
  else (eff, .error .generate_failed)

/-- Embedding of `main` (build.rs lines 133 to 139): unwrap `OUT_DIR`,
resolve the library, generate the bindings, and print the final rerun line
for build.rs itself. -/
def main_build (env : BuildEnv) : List Effect × Except BuildError Unit :=
  match env.out_dir with
  | none => ([], .error (.missing_env "OUT_DIR"))
  | some out_path =>
      let r1 := discover_library env out_path
      match r1.2 with
      | .error e => (r1.1, .error e)
      | .ok include_paths =>
          let r2 := generate_bindings env out_path include_paths
          match r2.2 with
          | .error e => (r1.1 ++ r2.1, .error e)
          | .ok _ =>
              (r1.1 ++ r2.1 ++ [Effect.cargo_line "cargo:rerun-if-changed=build.rs"],
               .ok ())

/-- Primary-library resolution trace (build.rs lines 71 to 87): the assimp
probe followed by either the probed link directives or the full
compile_bundled trace. -/
def primary_effects (env : BuildEnv) (out_path : String) : List Effect :=
  Effect.pkg_probe "assimp" (some "5.0") ::
  (match env.assimp_probe with
   | some assimp => pkg_lib_effects assimp
   | none => (compile_bundled env out_path).1)

/-- Primary-library resolution result: the probed include paths on
success, otherwise the compile_bundled result. -/
def primary_result (env : BuildEnv) (out_path : String) :
    Except BuildError (List String) :=
  match env.assimp_probe with
  | some assimp => .ok assimp.include_paths
  | none => (compile_bundled env out_path).2

/-- Minizip block trace (build.rs lines 89 to 96): the unconditional
minizip probe with no version constraint, followed by its link directives
when the probe succeeds and by nothing when it fails. -/
def minizip_effects (env : BuildEnv) : List Effect :=
  Effect.pkg_probe "minizip" none ::
  (match env.minizip_probe with
   | some minizip => pkg_lib_effects minizip
   | none => [])

/-- Trailing trace of discover_library: the standard library block when
`TARGET` is set, nothing when its unwrap panics. -/
def tail_effects (env : BuildEnv) : List Effect :=
  match env.target with
  | some target => std_lib_effects target
  | none => []

/-- Structural decomposition of discover_library into the blocks above. -/
lemma discover_library_decomp (env : BuildEnv) (out_path : String) :
    discover_library env out_path =
      match primary_result env out_path with
      | .error e => (primary_effects env out_path, .error e)
      | .ok include_paths =>
          match env.target with
          | none => (primary_effects env out_path ++ minizip_effects env,
                     .error (.missing_env "TARGET"))
          | some target =>
              (primary_effects env out_path ++ minizip_effects env ++
                 std_lib_effects target, .ok include_paths) := by
  unfold discover_library primary_effects primary_result minizip_effects
  rcases hp : env.assimp_probe with _ | a
  · rcases hc : (compile_bundled env out_path).2 with e | ips
    · simp [hc]
    · rcases ht : env.target with _ | t <;>
        rcases hm : env.minizip_probe with _ | mz <;> simp [hc, ht, hm]
  · rcases ht : env.target with _ | t <;>
      rcases hm : env.minizip_probe with _ | mz <;> simp [ht, hm]

/-- Effects that are cmake invocations: the observable marker of the
local-compilation branch. -/
def Effect.is_cmake : Effect → Bool
  | .cmake_build _ => true
  | _ => false

lemma pkg_lib_effects_no_cmake (lib : PkgLibrary) :
    (pkg_lib_effects lib).filter Effect.is_cmake = [] := by
  unfold pkg_lib_effects
  simp [List.filter_append, List.filter_map, Effect.is_cmake,
    List.filter_eq_nil_iff]

lemma rerun_loop_no_cmake (tree : List DirEntry) :
    (rerun_loop tree).filter Effect.is_cmake = [] := by
  induction tree with
  | nil => rfl
  | cons d rest ih =>
      unfold rerun_loop
      split <;> simp [List.filter_append, Effect.is_cmake, ih]

lemma std_lib_effects_no_cmake (target : String) :
    (std_lib_effects target).filter Effect.is_cmake = [] := by
  unfold std_lib_effects
  split <;> try split
  all_goals simp [Effect.is_cmake]

lemma compile_bundled_one_cmake (env : BuildEnv) (out_path : String) :
    ((compile_bundled env out_path).1.filter Effect.is_cmake) =
      [Effect.cmake_build "assimp"] := by
  unfold compile_bundled
  rcases hm : env.manifest_dir with _ | m <;>
    simp [hm, List.filter_append, Effect.is_cmake, rerun_loop_no_cmake]

lemma minizip_effects_no_cmake (env : BuildEnv) :
    (minizip_effects env).filter Effect.is_cmake = [] := by
  unfold minizip_effects
  rcases hm : env.minizip_probe with _ | mz <;>
    simp [Effect.is_cmake, pkg_lib_effects_no_cmake]

lemma tail_effects_no_cmake (env : BuildEnv) :
    (tail_effects env).filter Effect.is_cmake = [] := by
  unfold tail_effects
  rcases ht : env.target with _ | t <;> simp [std_lib_effects_no_cmake]

/-- C1: in every run of discover_library, the trace contains no cmake
invocation when the exact-version assimp probe succeeds, and exactly one
cmake invocation when it fails: the two resolution branches are mutually
exclusive and exhaustive. -/
theorem primary_resolution_exclusive (env : BuildEnv) (out_path : String) :
    ((discover_library env out_path).1.filter Effect.is_cmake).length =
      if env.assimp_probe.isSome then 0 else 1 := by
  rw [discover_library_decomp]
  rcases hp : env.assimp_probe with _ | a
  · have hpr : primary_result env out_path = (compile_bundled env out_path).2 := by
      unfold primary_result; simp [hp]
    have hpe : (primary_effects env out_path).filter Effect.is_cmake =
        [Effect.cmake_build "assimp"] := by
      unfold primary_effects
      simp [hp, Effect.is_cmake, compile_bundled_one_cmake]
    rcases hc : primary_result env out_path with e | ips
    · simp [hpe]
    · rcases ht : env.target with _ | t <;>
        simp [ht, List.filter_append, hpe, minizip_effects_no_cmake,
          tail_effects_no_cmake, std_lib_effects_no_cmake]
  · have hpe : (primary_effects env out_path).filter Effect.is_cmake = [] := by
      unfold primary_effects
      simp [hp, Effect.is_cmake, pkg_lib_effects_no_cmake]
    have hc : primary_result env out_path = .ok a.include_paths := by
      unfold primary_result; simp [hp]
    rcases ht : env.target with _ | t <;>
      simp [hc, ht, List.filter_append, hpe, minizip_effects_no_cmake,
        tail_effects_no_cmake, std_lib_effects_no_cmake]

/-- C5: the rebuild-trigger pass registers exactly the walkdir entries
whose file name ends in `.h`, `.cpp` or `.inl`, each as a rerun line for
its path, and registers nothing for any other entry. -/
theorem rerun_triggers_exact (tree : List DirEntry) :
    rerun_loop tree =
      (tree.filter (fun d => str_ends_with d.file_name ".h" ||
          str_ends_with d.file_name ".cpp" ||
          str_ends_with d.file_name ".inl")).map
        (fun d => Effect.cargo_line ("cargo:rerun-if-changed=" ++ d.path)) := by
  induction tree with
  | nil => rfl
  | cons d rest ih =>
      by_cases h : (str_ends_with d.file_name ".h" ||
          str_ends_with d.file_name ".cpp" ||
          str_ends_with d.file_name ".inl") = true
      · simp [rerun_loop, List.filter_cons, h, ih]
      · simp [rerun_loop, List.filter_cons, h, ih]

/-- Sample probe result used to instantiate theorems with hypotheses. -/
def sample_lib : PkgLibrary :=
  ⟨["/usr/lib"], ["assimp"], ["/usr/include/assimp"]⟩

/-- Sample environment in which the assimp probe fails and the bundled
fallback runs to completion. -/
def env_bundled : BuildEnv :=
  { opt_level := some "0"
    profile := some "release"
    target := some "x86_64-unknown-linux-gnu"
    out_dir := some "/build/out"
    manifest_dir := some "/crate"
    assimp_probe := none
    minizip_probe := none
    cmake_out := "/build/out/assimp"
    assimp_tree := [⟨"assimp/code/scene.cpp", "scene.cpp"⟩,
                    ⟨"assimp/README.md", "README.md"⟩]
    bindgen_ok := true
    write_ok := true }

/-- Sample environment in which the assimp probe succeeds. -/
def env_probed : BuildEnv :=
  { env_bundled with assimp_probe := some sample_lib }

/-- C3: when the assimp probe fails and the fallback runs, the include
paths returned for binding generation are exactly the bundled include
directory under the manifest directory and the include directory under
the output path, in that order, and nothing else. -/
theorem fallback_include_paths_exact (env : BuildEnv) (out_path md t : String)
    (hp : env.assimp_probe = none) (hm : env.manifest_dir = some md)
    (ht : env.target = some t) :
    (discover_library env out_path).2 =
      Except.ok [path_join (path_join md "assimp") "include",
                 path_join out_path "include"] := by
  rw [discover_library_decomp]
  have hres : primary_result env out_path =
      .ok [path_join (path_join md "assimp") "include",
           path_join out_path "include"] := by
    unfold primary_result compile_bundled
    simp [hp, hm]
  simp [hres, ht]

/-- C3 witness: the theorem applied to the sample fallback environment. -/
theorem fallback_include_paths_witness :
    (discover_library env_bundled "/build/out").2 =
      Except.ok [path_join (path_join "/crate" "assimp") "include",
                 path_join "/build/out" "include"] :=
  fallback_include_paths_exact env_bundled "/build/out" "/crate"
    "x86_64-unknown-linux-gnu" rfl rfl rfl

/-- C4: the standard library block links exactly stdc++ when the target
triple contains gnu, exactly c++ when it contains apple (and not gnu, the
first test of the else-if chain), and emits nothing when it contains
neither. -/
theorem std_directive_spec (target : String) :
    (str_contains target "gnu" = true →
        std_lib_effects target =
          [Effect.cargo_line "cargo:rustc-link-lib=stdc++"]) ∧
    (str_contains target "gnu" = false → str_contains target "apple" = true →
        std_lib_effects target =
          [Effect.cargo_line "cargo:rustc-link-lib=c++"]) ∧
    (str_contains target "gnu" = false → str_contains target "apple" = false →
        std_lib_effects target = []) := by
  refine ⟨fun h => ?_, fun h1 h2 => ?_, fun h1 h2 => ?_⟩ <;>
    simp [std_lib_effects, *]

/-- C4 witness: the theorem applied to a gnu target triple. -/
theorem std_directive_spec_witness :
    std_lib_effects "x86_64-unknown-linux-gnu" =
      [Effect.cargo_line "cargo:rustc-link-lib=stdc++"] :=
  (std_directive_spec "x86_64-unknown-linux-gnu").1 (by decide)

/-- C10: the standard library block emits at most one directive, and for a
target triple containing both gnu and apple the gnu test wins, so only the
stdc++ directive is emitted. -/
theorem std_directive_single (target : String) :
    (std_lib_effects target).length ≤ 1 ∧
    (str_contains target "gnu" = true → str_contains target "apple" = true →
        std_lib_effects target =
          [Effect.cargo_line "cargo:rustc-link-lib=stdc++"]) := by
  constructor
  · unfold std_lib_effects
    split
    · simp
    · split <;> simp
  · intro hg _
    simp [std_lib_effects, hg]

/-- C10 witness: the theorem applied to a triple containing both gnu and
apple. -/
theorem std_directive_single_witness :
    std_lib_effects "aarch64-apple-linux-gnu" =
      [Effect.cargo_line "cargo:rustc-link-lib=stdc++"] :=
  (std_directive_single "aarch64-apple-linux-gnu").2 (by decide) (by decide)

lemma clang_args_foldl_blacklist (l : List String) (b : Builder) :
    (l.foldl (fun b p => b.clang_args ["-I", p]) b).blacklisted_items =
      b.blacklisted_items := by
  induction l generalizing b with
  | nil => rfl
  | cons p rest ih =>
      rw [List.foldl_cons, ih]
      rfl

lemma bindgen_builder_blacklist (include_paths : List String) :
    (bindgen_builder include_paths).blacklisted_items =
      ["FP_ZERO", "FP_SUBNORMAL", "FP_NORMAL", "FP_NAN", "FP_INFINITE"] := by
  unfold bindgen_builder
  rw [clang_args_foldl_blacklist]
  rfl

/-- C6: every bindgen invocation recorded by generate_bindings carries a
deny-list equal to the five floating point classification symbols, and one
such invocation always occurs, whatever the include paths are. -/
theorem deny_list_fixed (env : BuildEnv) (out_path : String)
    (include_paths : List String) :
    (∀ b, Effect.bindgen_run b ∈ (generate_bindings env out_path include_paths).1 →
        b.blacklisted_items =
          ["FP_ZERO", "FP_SUBNORMAL", "FP_NORMAL", "FP_NAN", "FP_INFINITE"]) ∧
    Effect.bindgen_run (bindgen_builder include_paths) ∈
      (generate_bindings env out_path include_paths).1 := by
  constructor
  · intro b hb
    have hbe : b = bindgen_builder include_paths := by
      unfold generate_bindings at hb
      rcases hok : env.bindgen_ok <;> rcases hw : env.write_ok <;>
        simp [hok, hw] at hb <;> exact hb
    rw [hbe]
    exact bindgen_builder_blacklist include_paths
  · unfold generate_bindings
    rcases hok : env.bindgen_ok <;> rcases hw : env.write_ok <;> simp [hok, hw]

/-- C6 witness: the theorem applied to the sample environment with one
include path, discharging the membership hypothesis. -/
theorem deny_list_fixed_witness :
    (bindgen_builder ["/usr/include/assimp"]).blacklisted_items =
      ["FP_ZERO", "FP_SUBNORMAL", "FP_NORMAL", "FP_NAN", "FP_INFINITE"] :=
  (deny_list_fixed env_probed "/build/out" ["/usr/include/assimp"]).1
    (bindgen_builder ["/usr/include/assimp"])
    (by unfold generate_bindings env_probed env_bundled; simp)

/-- C7: generate_bindings aborts with the generate error (whose message is
the unable-to-generate-bindings text) when header parsing fails, aborts
with the write error when the output cannot be written, succeeds exactly
when both steps succeed, and a parse failure aborts the whole main build
step whenever it is reached. -/
theorem binding_generation_fatal (env : BuildEnv) (out_path : String)
    (include_paths : List String) :
    (env.bindgen_ok = false →
        (generate_bindings env out_path include_paths).2 =
          .error .generate_failed) ∧
    (env.bindgen_ok = true → env.write_ok = false →
        (generate_bindings env out_path include_paths).2 =
          .error .write_failed) ∧
    ((generate_bindings env out_path include_paths).2 = .ok () ↔
        env.bindgen_ok = true ∧ env.write_ok = true) ∧
    BuildError.generate_failed.message = "Unable to generate bindings" ∧
    BuildError.write_failed.message = "Couldn't write bindings" ∧
    (∀ o, env.out_dir = some o → env.manifest_dir.isSome = true →
        env.target.isSome = true → env.bindgen_ok = false →
        (main_build env).2 = .error .generate_failed) := by
  refine ⟨?_, ?_, ?_, rfl, rfl, ?_⟩
  · intro h
    unfold generate_bindings
    simp [h]
  · intro h hw
    unfold generate_bindings
    simp [h, hw]
  · unfold generate_bindings
    rcases hok : env.bindgen_ok <;> rcases hw : env.write_ok <;> simp [hok, hw]
  · intro o ho hm ht hbg
    rcases hmd : env.manifest_dir with _ | md
    · rw [hmd] at hm; simp at hm
    rcases htg : env.target with _ | t
    · rw [htg] at ht; simp at ht
    have hdl : ∃ ips, (discover_library env o).2 = .ok ips := by
      rw [discover_library_decomp]
      rcases hp : env.assimp_probe with _ | a
      · have hres : primary_result env o =
            .ok [path_join (path_join md "assimp") "include",
                 path_join o "include"] := by
          unfold primary_result compile_bundled
          simp [hp, hmd]
        exact ⟨[path_join (path_join md "assimp") "include",
                path_join o "include"], by simp [hres, htg]⟩
      · have hres : primary_result env o = .ok a.include_paths := by
          unfold primary_result
          simp [hp]
        exact ⟨a.include_paths, by simp [hres, htg]⟩
    rcases hdl with ⟨ips, hips⟩
    unfold main_build
    simp only [ho]
    rw [hips]
    unfold generate_bindings
    simp [hbg]

/-- C7 witness: the theorem applied to the sample environment with a
failing header parse, discharging every hypothesis concretely. -/
theorem binding_generation_fatal_witness :
    (main_build { env_probed with bindgen_ok := false }).2 =
      .error .generate_failed :=
  (binding_generation_fatal { env_probed with bindgen_ok := false }
      "/build/out" []).2.2.2.2.2 "/build/out" rfl rfl rfl rfl

lemma primary_result_ok (env : BuildEnv) (out_path : String)
    (h : env.assimp_probe.isSome = true ∨ env.manifest_dir.isSome = true) :
    ∃ include_paths, primary_result env out_path = .ok include_paths := by
  unfold primary_result
  rcases hp : env.assimp_probe with _ | a
  · rcases hm : env.manifest_dir with _ | m
    · rcases h with h | h
      · rw [hp] at h
        simp at h
      · rw [hm] at h
        simp at h
    · exact ⟨[path_join (path_join m "assimp") "include",
              path_join out_path "include"],
        by unfold compile_bundled; simp [hm]⟩
  · exact ⟨a.include_paths, rfl⟩

lemma mem_pkg_lib_effects {e : Effect} {lib : PkgLibrary}
    (he : e ∈ pkg_lib_effects lib) : ∃ s, e = .cargo_line s := by
  unfold pkg_lib_effects at he
  rcases List.mem_append.1 he with h | h <;>
    · obtain ⟨x, _, rfl⟩ := List.mem_map.1 h
      exact ⟨_, rfl⟩

lemma mem_rerun_loop {e : Effect} {tree : List DirEntry}
    (he : e ∈ rerun_loop tree) : ∃ s, e = .cargo_line s := by
  induction tree with
  | nil => simp [rerun_loop] at he
  | cons d rest ih =>
      unfold rerun_loop at he
      rcases List.mem_append.1 he with h | h
      · rcases hc : (str_ends_with d.file_name ".h" ||
            str_ends_with d.file_name ".cpp" ||
            str_ends_with d.file_name ".inl") with _ | _ <;>
          rw [hc] at h <;> simp at h
        exact ⟨_, h⟩
      · exact ih h

lemma mem_std_lib_effects {e : Effect} {t : String}
    (he : e ∈ std_lib_effects t) : ∃ s, e = .cargo_line s := by
  unfold std_lib_effects at he
  rcases h1 : str_contains t "gnu" with _ | _ <;> rw [h1] at he
  · rcases h2 : str_contains t "apple" with _ | _ <;> rw [h2] at he
    · simp at he
    · simp at he
      exact ⟨_, he⟩
  · simp at he
    exact ⟨_, he⟩

lemma mem_compile_bundled {e : Effect} {env : BuildEnv} {o : String}
    (he : e ∈ (compile_bundled env o).1) :
    (∃ s, e = .cargo_line s) ∨ e = .cmake_build "assimp" := by
  unfold compile_bundled at he
  rcases hm : env.manifest_dir with _ | m <;> rw [hm] at he <;>
    simp only [List.cons_append, List.nil_append, List.mem_cons] at he <;>
    rcases he with rfl | rfl | rfl | he
  · right; rfl
  · left; exact ⟨_, rfl⟩
  · left; exact ⟨_, rfl⟩
  · left; exact mem_rerun_loop he
  · right; rfl
  · left; exact ⟨_, rfl⟩
  · left; exact ⟨_, rfl⟩
  · left; exact mem_rerun_loop he

/-- C9: under any environment in which primary resolution completes, the
discover_library trace splits into the primary block, the minizip block
and the tail block; the returned result never depends on the minizip
probe; a failed minizip probe contributes exactly the version-free probe
and no directive; a successful one contributes the probe followed by its
link directives; and no other block contains the minizip probe. -/
theorem minizip_best_effort (env : BuildEnv) (out_path : String)
    (h : env.assimp_probe.isSome = true ∨ env.manifest_dir.isSome = true) :
    ((discover_library env out_path).1 =
        primary_effects env out_path ++ minizip_effects env ++
          tail_effects env) ∧
    ((discover_library env out_path).2 =
        (discover_library { env with minizip_probe := none } out_path).2) ∧
    (env.minizip_probe = none →
        minizip_effects env = [Effect.pkg_probe "minizip" none]) ∧
    (∀ mz, env.minizip_probe = some mz →
        minizip_effects env =
          Effect.pkg_probe "minizip" none :: pkg_lib_effects mz) ∧
    (Effect.pkg_probe "minizip" none ∉
        primary_effects env out_path ++ tail_effects env) := by
  obtain ⟨ips, hok⟩ := primary_result_ok env out_path h
  refine ⟨?_, ?_, ?_, ?_, ?_⟩
  · rw [discover_library_decomp, hok]
    rcases ht : env.target with _ | t
    · simp [ht, tail_effects]
    · simp [ht, tail_effects]
  · have hpr : primary_result { env with minizip_probe := none } out_path =
        primary_result env out_path := rfl
    rw [discover_library_decomp, discover_library_decomp, hpr, hok]
    rcases ht : env.target with _ | t <;> rfl
  · intro hm
    unfold minizip_effects
    simp [hm]
  · intro mz hm
    unfold minizip_effects
    simp [hm]
  · intro hmem
    rcases List.mem_append.1 hmem with hin | hin
    · unfold primary_effects at hin
      rcases List.mem_cons.1 hin with hcase | hcase

      · simp at hcase
      · rcases hp : env.assimp_probe with _ | a <;> rw [hp] at hcase
        · rcases mem_compile_bundled hcase with ⟨s, hs⟩ | hs <;> simp at hs
        · obtain ⟨s, hs⟩ := mem_pkg_lib_effects hcase
          simp at hs
    · unfold tail_effects at hin
      rcases ht : env.target with _ | t <;> rw [ht] at hin
      · simp at hin
      · obtain ⟨s, hs⟩ := mem_std_lib_effects hin
        simp at hs

/-- C9 witness: the splitting applied to the sample fallback environment,
whose minizip probe fails. -/
theorem minizip_best_effort_witness :
    (discover_library env_bundled "/build/out").1 =
      primary_effects env_bundled "/build/out" ++ minizip_effects env_bundled ++
        tail_effects env_bundled :=
  (minizip_best_effort env_bundled "/build/out" (Or.inr rfl)).1

lemma discover_result_cases (env : BuildEnv) (o : String) :
    (env.assimp_probe = none ∧ env.manifest_dir = none ∧
        (discover_library env o).2 =
          .error (.missing_env "CARGO_MANIFEST_DIR")) ∨
    ((env.assimp_probe.isSome = true ∨ env.manifest_dir.isSome = true) ∧
        env.target = none ∧
        (discover_library env o).2 = .error (.missing_env "TARGET")) ∨
    ((env.assimp_probe.isSome = true ∨ env.manifest_dir.isSome = true) ∧
        env.target.isSome = true ∧
        ∃ include_paths,
          (discover_library env o).2 = .ok include_paths) := by
  by_cases hres : env.assimp_probe.isSome = true ∨ env.manifest_dir.isSome = true
  · obtain ⟨ips, hok⟩ := primary_result_ok env o hres
    rcases ht : env.target with _ | t
    · refine Or.inr (Or.inl ⟨hres, rfl, ?_⟩)
      rw [discover_library_decomp, hok, ht]
    · refine Or.inr (Or.inr ⟨hres, rfl, ⟨ips, ?_⟩⟩)
      rw [discover_library_decomp, hok, ht]
  · push_neg at hres
    obtain ⟨h1, h2⟩ := hres
    rcases hp : env.assimp_probe with _ | a
    · rcases hm : env.manifest_dir with _ | m
      · refine Or.inl ⟨rfl, rfl, ?_⟩
        rw [discover_library_decomp]
        have hpr : primary_result env o =
            .error (.missing_env "CARGO_MANIFEST_DIR") := by
          unfold primary_result compile_bundled
          simp [hp, hm]
        rw [hpr]
      · rw [hm] at h2
        simp at h2
    · rw [hp] at h1
      simp at h1

/-- C8 amended: a missing output directory aborts immediately with no
effect emitted; the build succeeds exactly when the output directory and
target triple are set, the manifest directory is set or unneeded because
the probe succeeded, and both binding generation steps succeed; and the
only abort causes are the three fatal variables and the two binding
failures, so a missing optimization level or profile never aborts. -/
theorem env_abort_amended (env : BuildEnv) :
    (env.out_dir = none →
        main_build env = ([], .error (.missing_env "OUT_DIR"))) ∧
    ((main_build env).2 = .ok () ↔
        env.out_dir.isSome = true ∧ env.target.isSome = true ∧
        (env.assimp_probe.isSome = true ∨ env.manifest_dir.isSome = true) ∧
        env.bindgen_ok = true ∧ env.write_ok = true) ∧
    (∀ e, (main_build env).2 = .error e →
        e = .missing_env "OUT_DIR" ∨ e = .missing_env "TARGET" ∨
        e = .missing_env "CARGO_MANIFEST_DIR" ∨
        e = .generate_failed ∨ e = .write_failed) := by
  refine ⟨?_, ?_, ?_⟩
  · intro h
    unfold main_build
    rw [h]
  · rcases ho : env.out_dir with _ | o
    · unfold main_build
      rw [ho]
      simp [ho]
    · rcases discover_result_cases env o with
        ⟨hp, hm, hd⟩ | ⟨hpm, ht, hd⟩ | ⟨hpm, ht, ips, hd⟩
      · unfold main_build
        simp only [ho]
        rw [hd]
        simp [hp, hm, ho]
      · unfold main_build
        simp only [ho]
        rw [hd]
        simp [ht, ho]
      · unfold main_build
        simp only [ho]
        rw [hd]
        unfold generate_bindings
        rcases hok : env.bindgen_ok <;> rcases hw : env.write_ok <;>
          simp [hok, hw, hpm, ht, ho]
  · intro e he
    rcases ho : env.out_dir with _ | o
    · unfold main_build at he
      rw [ho] at he
      simp at he
      simp [he]
    · rcases discover_result_cases env o with
        ⟨hp, hm, hd⟩ | ⟨hpm, ht, hd⟩ | ⟨hpm, ht, ips, hd⟩ <;>
        unfold main_build at he <;> simp only [ho] at he <;> rw [hd] at he <;>
        simp at he
      · simp [he]
      · simp [he]
      · unfold generate_bindings at he
        rcases hok : env.bindgen_ok <;> rcases hw : env.write_ok <;>
          rw [hok, hw] at he <;> simp at he <;> simp [he]

/-- Sample probed environment with the optimization level and profile
variables unset. -/
def env_no_optlevel : BuildEnv :=
  { env_probed with opt_level := none, profile := none }

/-- Sample probed environment with the target triple variable unset. -/
def env_no_target : BuildEnv :=
  { env_probed with target := none }

/-- C8 counterexample: with the optimization level and profile both unset
the build completes with no abort, and with the target triple unset the
build aborts only after directives have already been emitted. -/
theorem env_abort_counterexample :
    (env_no_optlevel.opt_level = none ∧ env_no_optlevel.profile = none ∧
        (main_build env_no_optlevel).2 = Except.ok ()) ∧
    (env_no_target.target = none ∧
        (main_build env_no_target).2 = .error (.missing_env "TARGET") ∧
        (main_build env_no_target).1 ≠ []) := by
  constructor
  · exact ⟨rfl, rfl, rfl⟩
  · exact ⟨rfl, rfl, by decide⟩

/-- C8 witness: the amended theorem applied to an environment with the
output directory unset, discharging the hypothesis of its first
conjunct. -/
theorem env_abort_amended_witness :
    main_build { env_probed with out_dir := none } =
      ([], .error (.missing_env "OUT_DIR")) :=
  (env_abort_amended { env_probed with out_dir := none }).1 rfl

/-- C2: the debug suffix is the empty string for optimization levels 1, 2,
3, s and z regardless of profile; for the remaining levels it is d when
the level is 0 or the profile is debug, and empty otherwise; it is always
one of the two strings; and the two highlighted pairs evaluate as the
claim states. -/
theorem debug_suffix_spec (opt profile : String) :
    ((opt = "1" ∨ opt = "2" ∨ opt = "3" ∨ opt = "s" ∨ opt = "z") →
        debug_suffix opt profile = "") ∧
    (¬(opt = "1" ∨ opt = "2" ∨ opt = "3" ∨ opt = "s" ∨ opt = "z") →
        (opt = "0" ∨ profile = "debug") → debug_suffix opt profile = "d") ∧
    (¬(opt = "1" ∨ opt = "2" ∨ opt = "3" ∨ opt = "s" ∨ opt = "z") →
        opt ≠ "0" → profile ≠ "debug" → debug_suffix opt profile = "") ∧
    (debug_suffix opt profile = "" ∨ debug_suffix opt profile = "d") ∧
    debug_suffix "0" "release" = "d" ∧
    debug_suffix "" "debug" = "d" := by
  refine ⟨?_, ?_, ?_, ?_, rfl, rfl⟩
  · rintro (rfl | rfl | rfl | rfl | rfl) <;>
      (unfold debug_suffix; split <;> simp_all)
  · intro hfive h
    unfold debug_suffix
    split
    · exact absurd (Or.inl rfl) hfive
    · exact absurd (Or.inr (Or.inl rfl)) hfive
    · exact absurd (Or.inr (Or.inr (Or.inl rfl))) hfive
    · exact absurd (Or.inr (Or.inr (Or.inr (Or.inl rfl)))) hfive
    · exact absurd (Or.inr (Or.inr (Or.inr (Or.inr rfl)))) hfive
    · rfl
    · rfl
    · rcases h with rfl | rfl
      · simp_all
      · simp_all
  · intro hfive h0 hdebug
    unfold debug_suffix
    split
    · rfl
    · rfl
    · rfl
    · rfl
    · rfl
    · exact absurd rfl h0
    · exact absurd rfl hdebug
    · rfl
  · unfold debug_suffix
    split <;> simp

/-- C2 witness: the theorem applied at the concrete pair of optimization
level 1 and profile debug, discharging the disjunctive hypothesis. -/
theorem debug_suffix_spec_witness : debug_suffix "1" "debug" = "" :=
  (debug_suffix_spec "1" "debug").1 (Or.inl rfl)

end AssimpSys
